import Mathlib

/-!
Shallow embedding of the issue reconciliation engine from
`src/sync/issues.ts` of the advanced-git-sync repository.

Pure functions (`compareIssues`, `compareComments`, `prepareSourceLink`)
are translated to Lean functions; the async orchestrator (`syncIssues`,
`syncIssueComments`) is translated to a deterministic interpreter over an
environment that gives the result (value or thrown error) of every tracker
client call, and produces the ordered trace of client calls and log lines
together with the error rethrown to the caller, when any.
-/

namespace GitSync

/-- Issue record as fetched from a tracker client.  `body` is optional in
the TypeScript type (`body?: string`); `none` models `undefined`. -/
structure Issue where
  number : Nat
  title : String
  body : Option String
  state : String
  labels : List String
  deriving DecidableEq, Repr

/-- Comment record.  `refId` models JavaScript object identity (two
distinct comment objects have distinct `refId`s); the source code compares
comments both by `===` (reference) and by `.body` equality. -/
structure Comment where
  refId : Nat
  body : String
  deriving DecidableEq, Repr

/-- The `action` field of a comparison: `create`, `update` or `skip`. -/
inductive SyncAction where
  | create
  | update
  | skip
  deriving DecidableEq, Repr, BEq

/-- `IssueComparison` record: `targetIssue` is optional (absent models the
TypeScript record without the field). -/
structure IssueComparison where
  sourceIssue : Issue
  targetIssue : Option Issue
  action : SyncAction
  deriving DecidableEq, Repr

/-- `CommentComparison` record. -/
structure CommentComparison where
  sourceComment : Comment
  action : SyncAction
  deriving DecidableEq, Repr

/-- `arraysEqual` from issues.ts:
`a.length === b.length && a.every((val, index) => val === b[index])`. -/
def arraysEqual (a b : List String) : Bool :=
  a.length == b.length && (a.zip b).all fun p => p.1 == p.2

/-- Body of the `for` loop of `compareIssues` from issues.ts: the
comparison produced for one source issue.  The match is the first target
issue with an equal title (`Array.prototype.find`). -/
def compareOne (targetIssues : List Issue) (sourceIssue : Issue) : IssueComparison :=
  match targetIssues.find? (fun target => target.title == sourceIssue.title) with
  | none =>
      { sourceIssue := sourceIssue, targetIssue := none,
        action := SyncAction.create }
  | some targetIssue =>
      if sourceIssue.body != targetIssue.body
          || sourceIssue.state != targetIssue.state
          || !arraysEqual sourceIssue.labels targetIssue.labels then
        { sourceIssue := sourceIssue, targetIssue := some targetIssue,
          action := SyncAction.update }
      else
        { sourceIssue := sourceIssue, targetIssue := some targetIssue,
          action := SyncAction.skip }

/-- `compareIssues` from issues.ts: one comparison per source issue, in
`sourceIssues` order. -/
def compareIssues (sourceIssues targetIssues : List Issue) : List IssueComparison :=
  sourceIssues.map (compareOne targetIssues)

/-- Repository descriptor returned by a client's `getRepoInfo`. -/
structure RepoInfo where
  url : String
  deriving DecidableEq, Repr

/-- `prepareSourceLink` from issues.ts. -/
def prepareSourceLink (repoInfo : RepoInfo) (sourceIssue : Issue) : String :=
  "**Original Issue**: [" ++ sourceIssue.title ++ "](" ++ repoInfo.url
    ++ "/issues/" ++ toString sourceIssue.number ++ ")"

/-- JavaScript `!==` on `Comment | undefined` values, with `refId`
standing for object identity. -/
def commentRefNe : Option Comment → Option Comment → Bool
  | some a, some b => a.refId != b.refId
  | none, none => false
  | _, _ => true

/-- `compareComments` from issues.ts: only the first and the last source
comment are considered. -/
def compareComments (sourceComments targetComments : List Comment) :
    List CommentComparison :=
  let openingComment := sourceComments.head?
  let closingComment := sourceComments.getLast?
  let first : List CommentComparison :=
    match openingComment with
    | some o =>
        if !(targetComments.any fun c => c.body == o.body) then
          [{ sourceComment := o, action := SyncAction.create }]
        else []
    | none => []
  let second : List CommentComparison :=
    match closingComment with
    | some cl =>
        if commentRefNe (some cl) openingComment
            && !(targetComments.any fun c => c.body == cl.body) then
          [{ sourceComment := cl, action := SyncAction.create }]
        else []
    | none => []
  first ++ second

/-- Does some target comment have a body identical to `c`'s? -/
def hasIdenticalBody (targetComments : List Comment) (c : Comment) : Bool :=
  targetComments.any fun t => t.body == c.body

/-- Restatement of the specified comment-comparison behaviour, written
from the specification's words (§4.2): only the opening (first) and
closing (last) source comments are considered; the opening one is
included iff it exists and no target comment has an identical body; the
closing one is included iff it is a different comment object than the
opening one and no target comment has an identical body; an empty source
thread yields an empty result.  Used only to be compared against
`compareComments`. -/
def compareCommentsSpec (sourceComments targetComments : List Comment) :
    List CommentComparison :=
  match sourceComments.head?, sourceComments.getLast? with
  | some o, some cl =>
      (if hasIdenticalBody targetComments o then []
       else [{ sourceComment := o, action := SyncAction.create }])
        ++ (if cl.refId = o.refId ∨ hasIdenticalBody targetComments cl = true then []
            else [{ sourceComment := cl, action := SyncAction.create }])
  | _, _ => []

/-! ## Orchestrator embedding

`syncIssues` / `syncIssueComments` are async functions whose only effects
are tracker-client calls and log lines.  The environment below fixes the
outcome of every client call (`Except.error e` models a thrown
exception with message `e`); the interpreter replays the exact control
flow of the TypeScript code and records the ordered trace of events. -/

/-- Outcome of every tracker-client operation the reconciliation pass can
perform.  A `.error` result models the awaited promise rejecting. -/
structure Env where
  sourceIssuesResult : Except String (List Issue)
  targetIssuesResult : Except String (List Issue)
  createIssueResult : Issue → Except String Unit
  updateIssueResult : Nat → Issue → Except String Unit
  sourceCommentsResult : Nat → Except String (List Comment)
  targetCommentsResult : Nat → Except String (List Comment)
  createCommentResult : Nat → Comment → Except String Unit
  sourceRepo : RepoInfo

/-- Observable events of a reconciliation pass, in issuance order. -/
inductive Event where
  | fetchSourceCommentsCall (issueNumber : Nat)
  | fetchTargetCommentsCall (issueNumber : Nat)
  | createIssueCall (issue : Issue)
  | updateIssueCall (issueNumber : Nat) (issue : Issue)
  | createCommentCall (issueNumber : Nat) (comment : Comment)
  | infoLog (msg : String)
  | debugLog (msg : String)
  | warnLog (msg : String)
  | errorLog (msg : String)
  deriving DecidableEq, Repr

/-- An event that mutates the target repository (`createIssue`,
`updateIssue` or `createIssueComment` client call). -/
def Event.isMutation : Event → Bool
  | Event.createIssueCall _ => true
  | Event.updateIssueCall _ _ => true
  | Event.createCommentCall _ _ => true
  | _ => false

/-- An event belonging to comment synchronization: fetching either side's
comments or creating a comment. -/
def Event.isCommentOp : Event → Bool
  | Event.fetchSourceCommentsCall _ => true
  | Event.fetchTargetCommentsCall _ => true
  | Event.createCommentCall _ _ => true
  | _ => false

/-- An event that is a `core.warning` log line. -/
def Event.isWarn : Event → Bool
  | Event.warnLog _ => true
  | _ => false

/-- Helper `createIssue` from issues.ts: logs, performs the client call;
the second component is the error thrown by the call, when any. -/
def runCreateIssue (env : Env) (comparison : IssueComparison) :
    List Event × Option String :=
  let pre := [Event.infoLog ("Creating issue " ++ comparison.sourceIssue.title)]
  match env.createIssueResult comparison.sourceIssue with
  | Except.ok _ =>
      (pre ++ [Event.createIssueCall comparison.sourceIssue,
        Event.infoLog ("Created issue " ++ comparison.sourceIssue.title)], none)
  | Except.error e =>
      (pre ++ [Event.createIssueCall comparison.sourceIssue], some e)

/-- Helper `updateIssue` from issues.ts: returns early when `targetIssue`
is absent, else logs and calls `target.updateIssue`. -/
def runUpdateIssue (env : Env) (comparison : IssueComparison) :
    List Event × Option String :=
  match comparison.targetIssue with
  | none => ([], none)
  | some targetIssue =>
      let pre := [Event.infoLog ("Updating issue " ++ comparison.sourceIssue.title)]
      match env.updateIssueResult targetIssue.number comparison.sourceIssue with
      | Except.ok _ =>
          (pre ++ [Event.updateIssueCall targetIssue.number comparison.sourceIssue,
            Event.infoLog ("Updated issue " ++ comparison.sourceIssue.title)], none)
      | Except.error e =>
          (pre ++ [Event.updateIssueCall targetIssue.number comparison.sourceIssue],
            some e)

/-- Helper `createComment` from issues.ts. -/
def runCreateComment (env : Env) (issueNumber : Nat)
    (comparison : CommentComparison) : List Event × Option String :=
  let pre := [Event.infoLog ("Creating comment in issue #" ++ toString issueNumber)]
  match env.createCommentResult issueNumber comparison.sourceComment with
  | Except.ok _ =>
      (pre ++ [Event.createCommentCall issueNumber comparison.sourceComment,
        Event.infoLog ("Created comment in issue #" ++ toString issueNumber)], none)
  | Except.error e =>
      (pre ++ [Event.createCommentCall issueNumber comparison.sourceComment], some e)

/-- Body of the per-comment loop of `syncIssueComments`, inner try/catch
included: a failed creation is logged as a warning and swallowed. -/
def processCommentComparison (env : Env) (targetIssueNumber : Nat)
    (comparison : CommentComparison) : List Event :=
  match comparison.action with
  | SyncAction.create =>
      let r := runCreateComment env targetIssueNumber comparison
      match r.2 with
      | none => r.1
      | some e =>
          r.1 ++ [Event.warnLog ("Failed to sync comment in issue #"
            ++ toString targetIssueNumber ++ ": " ++ e)]
  | _ => []

/-- `syncIssueComments` from issues.ts.  Every error is caught inside the
function (the outer catch turns fetch failures into a warning, the inner
one per-comment failures), so it returns a trace and never an error. -/
def runSyncIssueComments (env : Env) (sourceIssueNumber targetIssueNumber : Nat) :
    List Event :=
  match env.sourceCommentsResult sourceIssueNumber with
  | Except.error e =>
      [Event.fetchSourceCommentsCall sourceIssueNumber,
        Event.warnLog ("Failed to sync comments for issue #"
          ++ toString sourceIssueNumber ++ ": " ++ e)]
  | Except.ok sourceComments =>
      match env.targetCommentsResult targetIssueNumber with
      | Except.error e =>
          [Event.fetchSourceCommentsCall sourceIssueNumber,
            Event.fetchTargetCommentsCall targetIssueNumber,
            Event.warnLog ("Failed to sync comments for issue #"
              ++ toString sourceIssueNumber ++ ": " ++ e)]
      | Except.ok targetComments =>
          [Event.fetchSourceCommentsCall sourceIssueNumber,
            Event.fetchTargetCommentsCall targetIssueNumber]
            ++ (compareComments sourceComments targetComments).flatMap
                (processCommentComparison env targetIssueNumber)

/-- The `create`-case payload of the per-issue loop of `syncIssues`:
`{...sourceIssue, body: (body || '') + blank line + source link}` — a
fresh record, the fetched issue itself is not modified. -/
def buildCreatePayload (repoInfo : RepoInfo) (sourceIssue : Issue) : Issue :=
  { sourceIssue with
    body := some ((sourceIssue.body.getD "") ++ "\n\n"
      ++ prepareSourceLink repoInfo sourceIssue) }

/-- The `switch` statement of the per-issue loop of `syncIssues`: the
events it emits and the error it throws, when any. -/
def runComparisonStep (env : Env) (comparison : IssueComparison) :
    List Event × Option String :=
  match comparison.action with
  | SyncAction.create =>
      runCreateIssue env
        { sourceIssue := buildCreatePayload env.sourceRepo comparison.sourceIssue,
          targetIssue := none, action := SyncAction.create }
  | SyncAction.update => runUpdateIssue env comparison
  | SyncAction.skip =>
      ([Event.infoLog ("Skipping " ++ comparison.sourceIssue.title
        ++ " - already in sync")], none)

/-- Body of the per-issue loop of `syncIssues`, try/catch included: on
success, comment sync runs when `targetIssue` is present; on failure, a
warning is logged and the error is swallowed. -/
def processComparison (env : Env) (comparison : IssueComparison) : List Event :=
  let step := runComparisonStep env comparison
  match step.2 with
  | some e =>
      step.1 ++ [Event.warnLog ("Failed to process issue "
        ++ comparison.sourceIssue.title ++ ": " ++ e)]
  | none =>
      step.1 ++
        match comparison.targetIssue with
        | some targetIssue =>
            runSyncIssueComments env comparison.sourceIssue.number targetIssue.number
        | none => []

/-- `logSyncPlan` from issues.ts. -/
def logSyncPlan (comparisons : List IssueComparison) : List Event :=
  let createCount := (comparisons.filter fun c => c.action == SyncAction.create).length
  let updateCount := (comparisons.filter fun c => c.action == SyncAction.update).length
  let skipCount := (comparisons.filter fun c => c.action == SyncAction.skip).length
  [Event.infoLog ("Sync Plan Summary: Create: " ++ toString createCount
    ++ " issues, Update: " ++ toString updateCount
    ++ " issues, Skip: " ++ toString skipCount ++ " issues (already in sync)")]

/-- `syncIssues` from issues.ts: the trace of the whole pass and the error
rethrown to the caller, when any.  Only the two issue fetches can reach
the outer catch — every per-item error is swallowed by the loop's inner
catch — so the pass rethrows exactly when a fetch fails. -/
def runSyncIssues (env : Env) : List Event × Option String :=
  match env.sourceIssuesResult with
  | Except.error e =>
      ([Event.errorLog ("Issue synchronization failed: " ++ e)], some e)
  | Except.ok sourceIssues =>
      match env.targetIssuesResult with
      | Except.error e =>
          ([Event.errorLog ("Issue synchronization failed: " ++ e)], some e)
      | Except.ok targetIssues =>
          let issueComparisons := compareIssues sourceIssues targetIssues
          ([Event.infoLog "Issue Sync Analysis:"]
            ++ logSyncPlan issueComparisons
            ++ issueComparisons.flatMap (processComparison env)
            ++ [Event.infoLog "Issue synchronization completed"], none)

/-! ## Concrete inputs used to instantiate the theorems -/

/-- Source issue that will need an update (target body differs). -/
def bugA : Issue :=
  { number := 1, title := "Bug A", body := some "x", state := "open", labels := ["bug"] }

/-- Target-side counterpart of `bugA` with a different body. -/
def bugATarget : Issue :=
  { number := 7, title := "Bug A", body := some "y", state := "open", labels := ["bug"] }

/-- Target-side counterpart of `bugA` identical in body, state and labels. -/
def bugASame : Issue :=
  { number := 7, title := "Bug A", body := some "x", state := "open", labels := ["bug"] }

/-- Source issue with no counterpart in the target. -/
def bugB : Issue :=
  { number := 2, title := "Bug B", body := some "z", state := "open", labels := [] }

/-- Source issue with an absent (`undefined`) body. -/
def bugNoBody : Issue :=
  { number := 3, title := "Bug N", body := none, state := "open", labels := [] }

/-- Issue pair for the label-order claims: same title, body and state. -/
def labSource : Issue :=
  { number := 4, title := "T", body := some "x", state := "open", labels := ["a", "b"] }

/-- Same labels as `labSource` in a different order. -/
def labTarget : Issue :=
  { number := 8, title := "T", body := some "x", state := "open", labels := ["b", "a"] }

/-- Environment where every client call succeeds. -/
def envAllOk : Env :=
  { sourceIssuesResult := Except.ok [bugA, bugB],
    targetIssuesResult := Except.ok [bugATarget],
    createIssueResult := fun _ => Except.ok (),
    updateIssueResult := fun _ _ => Except.ok (),
    sourceCommentsResult := fun _ => Except.ok [],
    targetCommentsResult := fun _ => Except.ok [],
    createCommentResult := fun _ _ => Except.ok (),
    sourceRepo := { url := "http://s" } }

/-- Scenario environment: the update of "Bug A" throws while the creation
of "Bug B" succeeds. -/
def envUpdateFails : Env :=
  { envAllOk with updateIssueResult := fun _ _ => Except.error "boom" }

/-- Environment where fetching the target issue list throws. -/
def envTargetFetchFails : Env :=
  { envAllOk with targetIssuesResult := Except.error "netfail" }

/-- Comparison with a present target issue and action `skip`. -/
def skipComparison : IssueComparison :=
  { sourceIssue := bugA, targetIssue := some bugATarget, action := SyncAction.skip }

/-- Comparison with no target issue and action `create`. -/
def createComparison : IssueComparison :=
  { sourceIssue := bugB, targetIssue := none, action := SyncAction.create }

/-- Comparison for the absent-body source issue. -/
def createNoBodyComparison : IssueComparison :=
  { sourceIssue := bugNoBody, targetIssue := none, action := SyncAction.create }

/-! ## Helper lemmas -/

theorem arraysEqual_iff (a b : List String) : arraysEqual a b = true ↔ a = b := by
  induction a generalizing b with
  | nil => cases b <;> simp [arraysEqual]
  | cons x xs ih =>
      cases b with
      | nil => simp [arraysEqual]
      | cons y ys =>
          have h := ih ys
          simp only [arraysEqual, List.length_cons, List.zip_cons_cons,
            List.all_cons, Bool.and_eq_true, beq_iff_eq, Nat.add_right_cancel_iff,
            List.cons.injEq] at h ⊢
          constructor
          · rintro ⟨hlen, hxy, hall⟩
            exact ⟨hxy, h.mp ⟨hlen, hall⟩⟩
          · rintro ⟨hxy, hrest⟩
            rcases h.mpr hrest with ⟨hlen, hall⟩
            exact ⟨hlen, hxy, hall⟩

theorem arraysEqual_false_iff (a b : List String) :
    arraysEqual a b = false ↔ ¬ a = b := by
  rw [← arraysEqual_iff a b]
  cases arraysEqual a b <;> simp

/-- The boolean update condition of `compareIssues`, as a proposition. -/
theorem updateCond_iff (src m : Issue) :
    (src.body != m.body || src.state != m.state
        || !arraysEqual src.labels m.labels) = true
      ↔ ¬ (src.body = m.body ∧ src.state = m.state ∧ src.labels = m.labels) := by
  simp only [Bool.or_eq_true, bne_iff_ne, ne_eq, Bool.not_eq_true',
    arraysEqual_false_iff]
  tauto

/-- Characterization of `compareOne`: matched target, action and
`targetIssue` field, as propositions. -/
theorem compareOne_spec (t : List Issue) (src : Issue) :
    (compareOne t src).sourceIssue = src ∧
    (match t.find? (fun target => target.title == src.title) with
     | none =>
         (compareOne t src).targetIssue = none ∧
         (compareOne t src).action = SyncAction.create
     | some m =>
         (compareOne t src).targetIssue = some m ∧
         ((compareOne t src).action = SyncAction.update ↔
           ¬ (src.body = m.body ∧ src.state = m.state ∧ src.labels = m.labels)) ∧
         ((compareOne t src).action = SyncAction.skip ↔
           (src.body = m.body ∧ src.state = m.state ∧ src.labels = m.labels))) := by
  rcases hf : t.find? (fun target => target.title == src.title) with _ | m
  · simp [compareOne, hf]
  · have hprop := updateCond_iff src m
    rcases hc : (src.body != m.body || src.state != m.state
        || !arraysEqual src.labels m.labels) with _ | _
    · rw [hc] at hprop
      have hconj : src.body = m.body ∧ src.state = m.state ∧ src.labels = m.labels := by
        by_contra h
        exact absurd (hprop.mpr h) (by simp)
      simp only [compareOne, hf, hc, Bool.false_eq_true, if_false]
      simp [hconj]
    · rw [hc] at hprop
      have hconj : ¬ (src.body = m.body ∧ src.state = m.state ∧ src.labels = m.labels) :=
        hprop.mp rfl
      simp [compareOne, hf, hc, hconj]

/-! ## Claim theorems -/

/-- C1: `compareIssues` returns exactly one `IssueComparison` per source
issue, in `sourceIssues` order; each source issue is matched to the first
target issue with an equal title (`find?`); the action is `create` when no
title matches, `update` when the match differs in body, state or label
sequence, and `skip` otherwise.  As a pure Lean function the embedding is
total and deterministic and cannot mutate its inputs. -/
theorem compareIssues_shape_and_actions (s t : List Issue) :
    (compareIssues s t).length = s.length ∧
    ∀ i : Nat,
      match s[i]?, (compareIssues s t)[i]? with
      | some src, some c =>
          c.sourceIssue = src ∧
          (match t.find? (fun target => target.title == src.title) with
           | none => c.targetIssue = none ∧ c.action = SyncAction.create
           | some m =>
               c.targetIssue = some m ∧
               (c.action = SyncAction.update ↔
                 ¬ (src.body = m.body ∧ src.state = m.state ∧ src.labels = m.labels)) ∧
               (c.action = SyncAction.skip ↔
                 (src.body = m.body ∧ src.state = m.state ∧ src.labels = m.labels)))
      | none, none => True
      | _, _ => False := by
  refine ⟨by simp [compareIssues], ?_⟩
  intro i
  rcases h : s[i]? with _ | src
  · have hg : (compareIssues s t)[i]? = none := by
      simp [compareIssues, List.getElem?_map, h]
    rw [hg]
    exact trivial
  · have hg : (compareIssues s t)[i]? = some (compareOne t src) := by
      simp [compareIssues, List.getElem?_map, h]
    rw [hg]
    exact compareOne_spec t src

/-- Witness for C1 at concrete lists. -/
theorem compareIssues_shape_and_actions_witness :
    (compareIssues [bugA, bugB] [bugATarget]).length = [bugA, bugB].length :=
  (compareIssues_shape_and_actions [bugA, bugB] [bugATarget]).1

/-- C4: in every comparison produced by `compareIssues`, the `targetIssue`
field is present iff the action is `update` or `skip`. -/
theorem targetIssue_present_iff_update_or_skip (s t : List Issue)
    (c : IssueComparison) (h : c ∈ compareIssues s t) :
    c.targetIssue.isSome = true ↔
      (c.action = SyncAction.update ∨ c.action = SyncAction.skip) := by
  rcases List.mem_map.mp h with ⟨src, hsrc, rfl⟩
  rcases hf : t.find? (fun target => target.title == src.title) with _ | m
  · simp [compareOne, hf]
  · by_cases hc : (src.body != m.body || src.state != m.state
        || !arraysEqual src.labels m.labels) = true
    · simp [compareOne, hf, hc]
    · simp [compareOne, hf, hc]

/-- Witness for C4 at a concrete comparison. -/
theorem targetIssue_present_iff_update_or_skip_witness :
    (compareOne [bugATarget] bugA).targetIssue.isSome = true ↔
      ((compareOne [bugATarget] bugA).action = SyncAction.update ∨
        (compareOne [bugATarget] bugA).action = SyncAction.skip) :=
  targetIssue_present_iff_update_or_skip [bugA] [bugATarget]
    (compareOne [bugATarget] bugA) (by decide)

/-- C7: on an issue pair identical in title, body and state, permuting
the labels (same elements, different sequence) yields action `update`,
while an identical label sequence yields `skip`; the label equality used
by the code holds exactly when the lists have the same length and
identical elements at every index. -/
theorem labelOrder_sensitivity (s t : Issue)
    (h1 : s.title = t.title) (h2 : s.body = t.body) (h3 : s.state = t.state) :
    (s.labels.Perm t.labels → s.labels ≠ t.labels →
      compareIssues [s] [t] =
        [{ sourceIssue := s, targetIssue := some t, action := SyncAction.update }]) ∧
    (s.labels = t.labels →
      compareIssues [s] [t] =
        [{ sourceIssue := s, targetIssue := some t, action := SyncAction.skip }]) ∧
    (∀ a b : List String, arraysEqual a b = true ↔
      (a.length = b.length ∧ ∀ i : Nat, a[i]? = b[i]?)) := by
  refine ⟨?_, ?_, ?_⟩
  · intro _ hne
    have hae : arraysEqual s.labels t.labels = false :=
      (arraysEqual_false_iff _ _).mpr hne
    simp [compareIssues, compareOne, List.find?, h1, h2, h3, hae]
  · intro heq
    have hae : arraysEqual s.labels t.labels = true :=
      (arraysEqual_iff _ _).mpr heq
    simp [compareIssues, compareOne, List.find?, h1, h2, h3, hae]
  · intro a b
    rw [arraysEqual_iff]
    constructor
    · rintro rfl
      exact ⟨rfl, fun i => rfl⟩
    · rintro ⟨hlen, hpt⟩
      exact List.ext_getElem? hpt

/-- Witness for C7: permuted labels on an otherwise identical pair. -/
theorem labelOrder_sensitivity_witness :
    compareIssues [labSource] [labTarget] =
      [{ sourceIssue := labSource, targetIssue := some labTarget,
         action := SyncAction.update }] :=
  (labelOrder_sensitivity labSource labTarget rfl rfl rfl).1
    (by decide) (by decide)

/-- C5: `compareComments` agrees with the specified first/last-comment
behaviour (opening comment included iff present with no identical body on
the target side; closing comment included iff a different object than the
opening one, by identity, with no identical body on the target side),
returns an empty list on an empty source thread, never more than two
entries, and at most one entry on a single-comment thread. -/
theorem compareComments_first_last_only (src tgt : List Comment) :
    compareComments src tgt = compareCommentsSpec src tgt ∧
    (compareComments src tgt).length ≤ 2 ∧
    compareComments [] tgt = [] ∧
    ∀ c : Comment, (compareComments [c] tgt).length ≤ 1 := by
  refine ⟨?_, ?_, by simp [compareComments], ?_⟩
  · cases src with
    | nil => simp [compareComments, compareCommentsSpec]
    | cons o rest =>
        rcases hl : (o :: rest).getLast? with _ | cl
        · simp [List.getLast?_eq_none_iff] at hl
        · cases hb1 : tgt.any (fun c => c.body == o.body) <;>
            cases hb2 : tgt.any (fun c => c.body == cl.body) <;>
            by_cases hr : cl.refId = o.refId <;>
            simp [compareComments, compareCommentsSpec, hasIdenticalBody,
              commentRefNe, hl, hb1, hb2, hr]
  · cases src with
    | nil => simp [compareComments]
    | cons o rest =>
        rcases hl : (o :: rest).getLast? with _ | cl
        · simp [List.getLast?_eq_none_iff] at hl
        · cases hb1 : tgt.any (fun c => c.body == o.body) <;>
            cases hb2 : tgt.any (fun c => c.body == cl.body) <;>
            by_cases hr : cl.refId = o.refId <;>
            simp [compareComments, commentRefNe, hl, hb1, hb2, hr]
  · intro c
    cases hb : tgt.any (fun x => x.body == c.body) <;>
      simp [compareComments, commentRefNe, hb]

/-- C2: with both issue fetches succeeding, the pass never rethrows; its
trace is the plan log followed by the concatenation of every comparison's
segment, in source order (one comparison's failure cannot remove a later
comparison's segment); and a comparison whose client call throws ends its
segment with a warning log instead of propagating. -/
theorem syncIssues_isolates_item_failures (env : Env) (si ti : List Issue)
    (hs : env.sourceIssuesResult = Except.ok si)
    (ht : env.targetIssuesResult = Except.ok ti) :
    (runSyncIssues env).2 = none ∧
    (runSyncIssues env).1 =
      [Event.infoLog "Issue Sync Analysis:"]
        ++ logSyncPlan (compareIssues si ti)
        ++ (compareIssues si ti).flatMap (processComparison env)
        ++ [Event.infoLog "Issue synchronization completed"] ∧
    ∀ c e, (runComparisonStep env c).2 = some e →
      processComparison env c = (runComparisonStep env c).1
        ++ [Event.warnLog ("Failed to process issue "
              ++ c.sourceIssue.title ++ ": " ++ e)] := by
  refine ⟨?_, ?_, ?_⟩
  · simp [runSyncIssues, hs, ht]
  · simp [runSyncIssues, hs, ht]
  · intro c e hthrow
    simp [processComparison, hthrow]

/-- Witness for C2: the update of "Bug A" throws, yet the pass completes
without rethrow, still attempts the creation of "Bug B", and logs a
warning for "Bug A". -/
theorem syncIssues_isolates_item_failures_witness :
    (runSyncIssues envUpdateFails).2 = none ∧
    Event.createIssueCall (buildCreatePayload envUpdateFails.sourceRepo bugB)
      ∈ (runSyncIssues envUpdateFails).1 ∧
    Event.warnLog ("Failed to process issue Bug A: boom")
      ∈ (runSyncIssues envUpdateFails).1 :=
  ⟨(syncIssues_isolates_item_failures envUpdateFails
      [bugA, bugB] [bugATarget] rfl rfl).1,
    by decide, by decide⟩

/-- C3: if fetching the source or the target issue list throws, the pass
logs the failure, rethrows the same error to the caller, and has
performed no mutating client operation. -/
theorem syncIssues_fetch_failure_aborts (env : Env) (e : String)
    (h : env.sourceIssuesResult = Except.error e ∨
      ((∃ si, env.sourceIssuesResult = Except.ok si) ∧
        env.targetIssuesResult = Except.error e)) :
    (runSyncIssues env).2 = some e ∧
    (runSyncIssues env).1 =
      [Event.errorLog ("Issue synchronization failed: " ++ e)] ∧
    (runSyncIssues env).1.all (fun ev => !ev.isMutation) = true := by
  rcases h with h | ⟨⟨si, hs⟩, ht⟩
  · refine ⟨?_, ?_, ?_⟩ <;> simp [runSyncIssues, h, Event.isMutation]
  · refine ⟨?_, ?_, ?_⟩ <;> simp [runSyncIssues, hs, ht, Event.isMutation]

/-- Witness for C3: fetching the target issues throws "netfail". -/
theorem syncIssues_fetch_failure_aborts_witness :
    (runSyncIssues envTargetFetchFails).2 = some "netfail" ∧
    (runSyncIssues envTargetFetchFails).1 =
      [Event.errorLog ("Issue synchronization failed: " ++ "netfail")] ∧
    (runSyncIssues envTargetFetchFails).1.all (fun ev => !ev.isMutation) = true :=
  syncIssues_fetch_failure_aborts envTargetFetchFails "netfail"
    (Or.inr ⟨⟨[bugA, bugB], rfl⟩, rfl⟩)

/-- Helper: processing a `create` comparison always attempts the
create-issue client call with the augmented payload. -/
theorem createIssueCall_mem_processComparison (env : Env) (c : IssueComparison)
    (h : c.action = SyncAction.create) :
    Event.createIssueCall (buildCreatePayload env.sourceRepo c.sourceIssue)
      ∈ processComparison env c := by
  rcases hr : env.createIssueResult (buildCreatePayload env.sourceRepo c.sourceIssue)
      with e | v <;>
    simp [processComparison, runComparisonStep, h, runCreateIssue, hr]

/-- C6: the payload of a `create` action has body equal to the source
issue's body, a blank line, then the backlink line, whose format is
`**Original Issue**: [title](repoUrl/issues/number)`. -/
theorem create_payload_backlink (env : Env) (c : IssueComparison)
    (h : c.action = SyncAction.create) :
    Event.createIssueCall (buildCreatePayload env.sourceRepo c.sourceIssue)
      ∈ processComparison env c ∧
    (buildCreatePayload env.sourceRepo c.sourceIssue).body =
      some ((c.sourceIssue.body.getD "") ++ "\n\n"
        ++ prepareSourceLink env.sourceRepo c.sourceIssue) ∧
    prepareSourceLink env.sourceRepo c.sourceIssue =
      "**Original Issue**: [" ++ c.sourceIssue.title ++ "]("
        ++ env.sourceRepo.url ++ "/issues/"
        ++ toString c.sourceIssue.number ++ ")" :=
  ⟨createIssueCall_mem_processComparison env c h, rfl, rfl⟩

/-- Witness for C6 at a concrete environment and comparison. -/
theorem create_payload_backlink_witness :
    Event.createIssueCall
        (buildCreatePayload envAllOk.sourceRepo createComparison.sourceIssue)
      ∈ processComparison envAllOk createComparison ∧
    (buildCreatePayload envAllOk.sourceRepo createComparison.sourceIssue).body =
      some ((createComparison.sourceIssue.body.getD "") ++ "\n\n"
        ++ prepareSourceLink envAllOk.sourceRepo createComparison.sourceIssue) ∧
    prepareSourceLink envAllOk.sourceRepo createComparison.sourceIssue =
      "**Original Issue**: [" ++ createComparison.sourceIssue.title ++ "]("
        ++ envAllOk.sourceRepo.url ++ "/issues/"
        ++ toString createComparison.sourceIssue.number ++ ")" :=
  create_payload_backlink envAllOk createComparison rfl

/-- C10: when the source issue's body is absent, the `create` payload's
body is the empty string, a blank line, then the backlink, and the other
fields of the payload equal the source issue's; the payload is a fresh
record, the fetched issue value itself being unchanged (the embedding is
pure). -/
theorem create_payload_missing_body (env : Env) (c : IssueComparison)
    (h1 : c.action = SyncAction.create) (h2 : c.sourceIssue.body = none) :
    Event.createIssueCall (buildCreatePayload env.sourceRepo c.sourceIssue)
      ∈ processComparison env c ∧
    (buildCreatePayload env.sourceRepo c.sourceIssue).body =
      some ("" ++ "\n\n" ++ prepareSourceLink env.sourceRepo c.sourceIssue) ∧
    (buildCreatePayload env.sourceRepo c.sourceIssue).number = c.sourceIssue.number ∧
    (buildCreatePayload env.sourceRepo c.sourceIssue).title = c.sourceIssue.title ∧
    (buildCreatePayload env.sourceRepo c.sourceIssue).state = c.sourceIssue.state ∧
    (buildCreatePayload env.sourceRepo c.sourceIssue).labels = c.sourceIssue.labels := by
  refine ⟨createIssueCall_mem_processComparison env c h1, ?_, rfl, rfl, rfl, rfl⟩
  simp [buildCreatePayload, h2]

/-- Witness for C10 at a concrete environment and comparison. -/
theorem create_payload_missing_body_witness :
    Event.createIssueCall
        (buildCreatePayload envAllOk.sourceRepo createNoBodyComparison.sourceIssue)
      ∈ processComparison envAllOk createNoBodyComparison ∧
    (buildCreatePayload envAllOk.sourceRepo createNoBodyComparison.sourceIssue).body =
      some ("" ++ "\n\n"
        ++ prepareSourceLink envAllOk.sourceRepo createNoBodyComparison.sourceIssue) ∧
    (buildCreatePayload envAllOk.sourceRepo createNoBodyComparison.sourceIssue).number =
      createNoBodyComparison.sourceIssue.number ∧
    (buildCreatePayload envAllOk.sourceRepo createNoBodyComparison.sourceIssue).title =
      createNoBodyComparison.sourceIssue.title ∧
    (buildCreatePayload envAllOk.sourceRepo createNoBodyComparison.sourceIssue).state =
      createNoBodyComparison.sourceIssue.state ∧
    (buildCreatePayload envAllOk.sourceRepo createNoBodyComparison.sourceIssue).labels =
      createNoBodyComparison.sourceIssue.labels :=
  create_payload_missing_body envAllOk createNoBodyComparison rfl rfl

/-- C9: a comparison produced by `compareIssues` with action `create`
carries no target issue, and processing it performs no comment operation:
no comment fetch on either side and no comment creation. -/
theorem create_comparisons_no_comment_ops (env : Env) (s t : List Issue)
    (c : IssueComparison) (hmem : c ∈ compareIssues s t)
    (hact : c.action = SyncAction.create) :
    c.targetIssue = none ∧
    (processComparison env c).all (fun ev => !ev.isCommentOp) = true := by
  have htgt : c.targetIssue = none := by
    rcases List.mem_map.mp hmem with ⟨src, hsrc, rfl⟩
    rcases hf : t.find? (fun target => target.title == src.title) with _ | m
    · simp [compareOne, hf]
    · exfalso
      revert hact
      by_cases hc : (src.body != m.body || src.state != m.state
          || !arraysEqual src.labels m.labels) = true <;>
        simp [compareOne, hf, hc]
  refine ⟨htgt, ?_⟩
  rcases hr : env.createIssueResult (buildCreatePayload env.sourceRepo c.sourceIssue)
      with e | v <;>
    simp [processComparison, runComparisonStep, hact, runCreateIssue, hr, htgt,
      Event.isCommentOp]

/-- Witness for C9 at a concrete environment and comparison. -/
theorem create_comparisons_no_comment_ops_witness :
    createComparison.targetIssue = none ∧
    (processComparison envAllOk createComparison).all
      (fun ev => !ev.isCommentOp) = true :=
  create_comparisons_no_comment_ops envAllOk [bugB] [] createComparison
    (by decide) rfl

/-- Helper: the issue-level step of the per-comparison loop (create,
update or skip handling, without the subsequent comment sync) performs no
comment operation. -/
theorem runComparisonStep_no_comment_ops (env : Env) (c : IssueComparison) :
    (runComparisonStep env c).1.all (fun ev => !ev.isCommentOp) = true := by
  rcases c with ⟨src, tgt, act⟩
  cases act with
  | create =>
      rcases hr : env.createIssueResult (buildCreatePayload env.sourceRepo src)
          with e | v <;>
        simp [runComparisonStep, runCreateIssue, hr, Event.isCommentOp]
  | update =>
      rcases tgt with _ | t
      · simp [runComparisonStep, runUpdateIssue]
      · rcases hr : env.updateIssueResult t.number src with e | v <;>
          simp [runComparisonStep, runUpdateIssue, hr, Event.isCommentOp]
  | skip => simp [runComparisonStep, Event.isCommentOp]

/-- Counterexample to C8 as stated: with the client's update throwing,
the comparison for "Bug A" has a present target issue, yet the whole pass
performs no comment-synchronization operation at all — comment sync does
not run for every comparison whose `targetIssue` is present. -/
theorem commentSync_not_run_despite_target_present :
    ((compareIssues [bugA, bugB] [bugATarget]).map
        (fun c => c.targetIssue.isSome)) = [true, false] ∧
    (runSyncIssues envUpdateFails).1.any (fun ev => ev.isCommentOp) = false := by
  decide

/-- C8 (amended): comment synchronization runs for a comparison iff its
`targetIssue` is present and the issue-level step did not throw — in
particular for both `update` and `skip` actions; a comment-fetch failure
produces only a warning; with successful fetches every comment `create`
comparison is processed, and a failing creation is logged individually
without removing a sibling's segment; no error escapes comment
synchronization (it returns a plain trace). -/
theorem commentSync_amended (env : Env) (c : IssueComparison) :
    (∀ t, c.targetIssue = some t → (runComparisonStep env c).2 = none →
      processComparison env c = (runComparisonStep env c).1
        ++ runSyncIssueComments env c.sourceIssue.number t.number) ∧
    (c.targetIssue = none →
      (processComparison env c).all (fun ev => !ev.isCommentOp) = true) ∧
    (∀ e, (runComparisonStep env c).2 = some e →
      (processComparison env c).all (fun ev => !ev.isCommentOp) = true) ∧
    (∀ sn tn e, env.sourceCommentsResult sn = Except.error e →
      runSyncIssueComments env sn tn =
        [Event.fetchSourceCommentsCall sn,
          Event.warnLog ("Failed to sync comments for issue #"
            ++ toString sn ++ ": " ++ e)]) ∧
    (∀ sn tn srcC tgtC, env.sourceCommentsResult sn = Except.ok srcC →
      env.targetCommentsResult tn = Except.ok tgtC →
      runSyncIssueComments env sn tn =
        [Event.fetchSourceCommentsCall sn, Event.fetchTargetCommentsCall tn]
          ++ (compareComments srcC tgtC).flatMap
              (processCommentComparison env tn)) ∧
    (∀ tn cc e, cc.action = SyncAction.create →
      (runCreateComment env tn cc).2 = some e →
      processCommentComparison env tn cc = (runCreateComment env tn cc).1
        ++ [Event.warnLog ("Failed to sync comment in issue #"
              ++ toString tn ++ ": " ++ e)]) := by
  have hall := runComparisonStep_no_comment_ops env c
  refine ⟨?_, ?_, ?_, ?_, ?_, ?_⟩
  · intro t htgt hok
    simp [processComparison, hok, htgt]
  · intro htgt
    rcases hstep : (runComparisonStep env c).2 with _ | e
    · simp [processComparison, hstep, htgt, List.all_append, hall]
    · have h2 : processComparison env c = (runComparisonStep env c).1
          ++ [Event.warnLog ("Failed to process issue "
                ++ c.sourceIssue.title ++ ": " ++ e)] := by
        simp [processComparison, hstep]
      rw [h2, List.all_append, hall]
      simp [Event.isCommentOp]
  · intro e hstep
    have h2 : processComparison env c = (runComparisonStep env c).1
        ++ [Event.warnLog ("Failed to process issue "
              ++ c.sourceIssue.title ++ ": " ++ e)] := by
      simp [processComparison, hstep]
    rw [h2, List.all_append, hall]
    simp [Event.isCommentOp]
  · intro sn tn e h
    simp [runSyncIssueComments, h]
  · intro sn tn srcC tgtC h1 h2
    simp [runSyncIssueComments, h1, h2]
  · intro tn cc e hact hthrow
    simp [processCommentComparison, hact, hthrow]

/-- Witness for the amended C8: a `skip` comparison (never throws) with a
present target issue does run comment synchronization. -/
theorem commentSync_amended_witness :
    processComparison envUpdateFails skipComparison =
      (runComparisonStep envUpdateFails skipComparison).1
        ++ runSyncIssueComments envUpdateFails
            skipComparison.sourceIssue.number bugATarget.number :=
  (commentSync_amended envUpdateFails skipComparison).1 bugATarget rfl rfl

end GitSync
